import Mathlib

/-!
Verification of the adaptive synthetic-workload and latency-metrics engine
of `app/server.py` (repository rtc-scale-demo).

The Python module is embedded shallowly:

* Durations are modelled as exact rationals (`ℚ`).  Every property proved
  here is an order/arithmetic fact about the clamp, the window and the
  percentile index; on the values that actually occur the IEEE-double
  computations of the source agree with the rational ones (the one place
  where this needs care, the percentile index `int(0.95 * (n - 1))`, is
  discussed at `p95` below).
* The process-wide mutable globals (`_concurrent_requests`,
  `_last_latencies`, `GPU_SIMULATION`, `DEVICE`, the p95 gauge) are
  gathered into an explicit `GlobalState` record threaded through the
  request handler.
* The sources of nondeterminism and of real time (`random.uniform`,
  `time.perf_counter`, a mid-flight GPU failure raised inside
  `real_gpu_process`) are explicit inputs, one `Env` record per call.
* Fallible Python code (a raised `ValueError` / `HTTPException`) becomes
  `Option` / `Except`.
* The handler additionally reports which heavy computations it invoked
  (`Effects`): how often `cpu_intensive_process` ran, how often
  `real_gpu_process` was attempted, and the duration passed to
  `time.sleep` on the simulated path.  These counters record the control
  flow of lines 183-204 of `server.py` and nothing else.
-/

/-- Digits accepted by the pattern `^(\d+)[xX](\d+)$` of `parse_pixels`
(restricted to ASCII digits, which is what the spec's `<digits>` means and
what every claim exercises). -/
def isPixDigit (c : Char) : Bool := c.isDigit

/-- Separator accepted by the pattern: a case-insensitive `x`. -/
def isSepChar (c : Char) : Bool := c = 'x' || c = 'X'

/-- Value of a digit string, as Python's `int` computes it
(leading zeros allowed, `int "007" = 7`). -/
def digitsVal (cs : List Char) : ℕ :=
  cs.foldl (fun a c => 10 * a + (c.toNat - 48)) 0

/-- `parse_pixels` (server.py lines 73-77): `re.match` of
`^(\d+)[xX](\d+)$` with the two groups converted by `int`; a failed match
raises `ValueError`, modelled as `none`.  The greedy `\d+` takes the
maximal digit prefix, which is `takeWhile`; the separator is not a digit,
so the decomposition below is exactly the regex's. -/
def parse_pixels (p : String) : Option (ℕ × ℕ) :=
  let cs := p.toList
  let d1 := cs.takeWhile isPixDigit
  match cs.dropWhile isPixDigit with
  | [] => none
  | sep :: d2 =>
      if d1 ≠ [] ∧ isSepChar sep ∧ d2 ≠ [] ∧ d2.all isPixDigit then
        some (digitsVal d1, digitsVal d2)
      else none

/-- `p95` (server.py lines 79-84): return `0.0` on an empty list, else
sort ascending and index at `int(0.95 * (len(s) - 1))`.  The index is
embedded as `(19 * (n - 1)) / 20` in `ℕ`: for every length `n` the source
can see (the window holds at most 512 samples; in fact for every
`n ≤ 200000`) the IEEE-double expression `int(0.95 * (n - 1))` equals
this exact floor. -/
def p95 (values : List ℚ) : ℚ :=
  if values.isEmpty then 0
  else
    let s := List.insertionSort (· ≤ ·) values
    s.getD ((19 * (s.length - 1)) / 20) 0

/-- The process-wide configuration read by `device_str` and `process`:
the `GPU_SIMULATION` flag (mutable via the toggle endpoint), whether the
`import torch` at module top succeeded, the `CUDA_WANTED` env preference,
the result of `torch.cuda.is_available()`, and whether numpy imported
(selects the branch inside `cpu_intensive_process`). -/
structure Config where
  gpuSimulation : Bool
  torchPresent : Bool
  cudaWanted : Bool
  cudaAvailable : Bool
  npPresent : Bool
deriving DecidableEq

/-- `device_str` (server.py lines 52-59). -/
def device_str (c : Config) : String :=
  if c.gpuSimulation then "cuda-simulated"
  else if ¬ c.torchPresent then "cpu"
  else if c.cudaWanted ∧ c.cudaAvailable then "cuda"
  else "cpu"

/-- The resolved-mode rule in the words of the spec (§4.3): if the
override flag is set, the simulated accelerator; else if the accelerator
is wanted and actually available, the real accelerator; else the
general-purpose mode.  "Actually available" means the probe succeeded,
which requires the library to be importable at all. -/
def specResolvedMode (c : Config) : String :=
  if c.gpuSimulation then "cuda-simulated"
  else if c.cudaWanted ∧ (c.torchPresent ∧ c.cudaAvailable) then "cuda"
  else "cpu"

/-- Simulated-GPU duration (server.py lines 186-189):
`base = 0.003 + iters * 0.0005 + w * h * 1e-9`, a uniformly drawn
`variation` in `[-0.15, 0.15]` (`GPU_CONSISTENCY_FACTOR`), then
`base * (1 + variation)` clamped by `max(0.002, min(0.015, _))`. -/
def simulated_gpu_duration (w h : ℕ) (iters : ℤ) (variation : ℚ) : ℚ :=
  let base : ℚ := 3 / 1000 + iters * (1 / 2000) + (w * h : ℚ) * (1 / 1000000000)
  max (2 / 1000) (min (15 / 1000) (base * (1 + variation)))

/-- Scalar-operation count of `cpu_intensive_process` (server.py lines
132-166), read off its loop structure.  With numpy present, each of the
`range(iterations)` passes runs the manual convolution
(3 channels × `(height - 2)` × `(width - 2)` inner sums of 27 products)
and the ReLU over the `3 × height × width` array; without numpy it runs
the basic loop `range(iterations * width * height // 1000)` (Python floor
division, and a nonpositive bound makes the range empty).  The essential
point for the spec is visible in the signature: the function receives
only `width`, `height`, `iterations` — it never reads
`_concurrent_requests`. -/
def cpu_intensive_work (width height : ℕ) (iterations : ℤ) (npPresent : Bool) : ℕ :=
  if npPresent then
    iterations.toNat * (3 * (height - 2) * (width - 2) * 27 + 3 * height * width)
  else
    ((iterations * width * height).fdiv 1000).toNat

/-- The general-purpose path's cost viewed as the spec's load model: a
function of the current concurrency counter.  `cpu_intensive_process`
never reads `_concurrent_requests`, so the counter argument does not
occur in the body — the code computes identical work at every
concurrency level. -/
def cpuWorkAtConcurrency (_concurrency : ℤ) (width height : ℕ)
    (iterations : ℤ) (npPresent : Bool) : ℕ :=
  cpu_intensive_work width height iterations npPresent

/-- One `append` on `_last_latencies = deque(maxlen=512)` (server.py
lines 42 and 210): at capacity the oldest entry is evicted, then the new
value goes to the right end. -/
def recordLatency (window : List ℚ) (d : ℚ) : List ℚ :=
  if window.length = 512 then window.tail ++ [d] else window ++ [d]

/-- The process-wide mutable state of the module: the resolved `DEVICE`
string (kept in sync with the configuration by startup and by the toggle
endpoint), `_concurrent_requests`, `_last_latencies`, and the value last
written to the `LATENCY_P95` gauge. -/
structure GlobalState where
  cfg : Config
  device : String
  concurrent : ℤ
  window : List ℚ
  p95Gauge : ℚ
deriving DecidableEq

/-- Per-call nondeterminism and real time: the `random.uniform` draw of
the simulated path, whether the GPU attempt raises mid-flight, and the
wall-clock elapsed time `time.perf_counter() - start` measured for the
call. -/
structure Env where
  variation : ℚ
  gpuFails : Bool
  elapsed : ℚ
deriving DecidableEq

/-- Which heavy computations a call performed: number of
`cpu_intensive_process` runs, number of `real_gpu_process` attempts, and
the duration slept on the simulated path. -/
structure Effects where
  cpuCalls : ℕ
  gpuAttempts : ℕ
  sleptSim : Option ℚ
deriving DecidableEq

/-- The JSON body returned by a successful `process` call (server.py
lines 213-223), minus the metrics-only fields. -/
structure ProcessResult where
  device : String
  pixels : ℕ × ℕ
  iters : ℤ
  latency_seconds : ℚ
  processing_mode : String
  concurrent_requests : ℤ
deriving DecidableEq

/-- The `process` handler (server.py lines 168-223).  Control flow of the
source, in order: increment `_concurrent_requests`; parse the pixel
string, re-raising a failure as HTTP 400 (note: this path returns with no
decrement); run the branch selected by `GPU_SIMULATION` /
`DEVICE == "cuda" and torch is not None and torch.cuda.is_available()`,
where a failing GPU attempt is caught and `cpu_intensive_process` runs
once as fallback; decrement; append the measured duration to the window
and set the gauge to the recomputed p95; build the response, whose
`processing_mode` is `"gpu" if DEVICE == "cuda" else "cpu"`. -/
def process (g : GlobalState) (env : Env) (pixels : String) (iters : ℤ) :
    GlobalState × Except ℕ ProcessResult × Effects :=
  let conc1 := g.concurrent + 1
  match parse_pixels pixels with
  | none => ({ g with concurrent := conc1 }, Except.error 400, ⟨0, 0, none⟩)
  | some (w, h) =>
      let eff : Effects :=
        if g.cfg.gpuSimulation then
          ⟨0, 0, some (simulated_gpu_duration w h iters env.variation)⟩
        else if g.device = "cuda" ∧ g.cfg.torchPresent ∧ g.cfg.cudaAvailable then
          if env.gpuFails then ⟨1, 1, none⟩ else ⟨0, 1, none⟩
        else ⟨1, 0, none⟩
      let dur := env.elapsed
      let conc2 := conc1 - 1
      let window := recordLatency g.window dur
      ({ g with concurrent := conc2, window := window, p95Gauge := p95 window },
       Except.ok
         { device := g.device
           pixels := (w, h)
           iters := iters
           latency_seconds := dur
           processing_mode := if g.device = "cuda" then "gpu" else "cpu"
           concurrent_requests := conc2 },
       eff)

/-- Response body of the toggle endpoint (the fields the claims touch). -/
structure ToggleStatus where
  gpu_simulation : Bool
  device : String
deriving DecidableEq

/-- `toggle_gpu_simulation` (server.py lines 230-241): negate
`GPU_SIMULATION` and recompute `DEVICE = device_str()`. -/
def toggle_gpu_simulation (g : GlobalState) : GlobalState × ToggleStatus :=
  let cfg := { g.cfg with gpuSimulation := ¬ g.cfg.gpuSimulation }
  let dev := device_str cfg
  ({ g with cfg := cfg, device := dev }, ⟨cfg.gpuSimulation, dev⟩)

/-- The two operations ever applied to `_concurrent_requests` by
`process`: `+= 1` at entry (line 171) and `-= 1` at completion
(line 207).  Python integers are unbounded, hence `ℤ`. -/
inductive CounterOp where
  | inc
  | dec
deriving DecidableEq

/-- Effect of one counter operation. -/
def applyCounterOp (n : ℤ) : CounterOp → ℤ
  | CounterOp.inc => n + 1
  | CounterOp.dec => n - 1

/-- Counter value after a sequence of operations starting from `n`. -/
def runCounter (n : ℤ) (ops : List CounterOp) : ℤ :=
  ops.foldl applyCounterOp n

/-- A sequence of counter operations is matched when every decrement is
matched by an earlier increment: in every prefix the decrements do not
outnumber the increments. -/
def MatchedOps (ops : List CounterOp) : Prop :=
  ∀ n : ℕ, (ops.take n).count CounterOp.dec ≤ (ops.take n).count CounterOp.inc

/-! Concrete states used by the witnesses. -/

/-- Configuration with the simulation override on. -/
def simConfig : Config := ⟨true, false, false, false, true⟩

/-- Startup state under the simulation override. -/
def simState : GlobalState := ⟨simConfig, device_str simConfig, 0, [], 0⟩

/-- Configuration resolving to the real accelerator. -/
def cudaConfig : Config := ⟨false, true, true, true, true⟩

/-- Startup state in real-accelerator mode. -/
def cudaState : GlobalState := ⟨cudaConfig, device_str cudaConfig, 0, [], 0⟩

/-- Configuration resolving to the general-purpose path. -/
def cpuConfig : Config := ⟨false, false, false, false, true⟩

/-- Startup state in general-purpose mode. -/
def cpuState : GlobalState := ⟨cpuConfig, device_str cpuConfig, 0, [], 0⟩

/-- An environment where nothing fails. -/
def calmEnv : Env := ⟨0, false, 1 / 100⟩

/-- An environment whose GPU attempt raises mid-flight. -/
def gpuFailEnv : Env := ⟨0, true, 1 / 100⟩

/-- `device_str` computes exactly the spec's resolved-mode rule. -/
lemma device_str_eq_spec (c : Config) : device_str c = specResolvedMode c := by
  obtain ⟨s, t, wnt, a, n⟩ := c
  cases s <;> cases t <;> cases wnt <;> cases a <;> rfl

/-- C10: the percentile computation applied to an empty window returns
exactly 0.0. -/
theorem p95_empty_eq_zero : p95 [] = 0 := rfl

/-- C7: the resolved device mode, at startup and after any toggle of the
simulation override, is computed by exactly the rule: override flag →
simulated accelerator; else want-accelerator and accelerator actually
available → real accelerator; else general-purpose. -/
theorem device_mode_rule (c : Config) (g : GlobalState) :
    device_str c = specResolvedMode c ∧
    (toggle_gpu_simulation g).1.device
      = specResolvedMode (toggle_gpu_simulation g).1.cfg := by
  exact ⟨device_str_eq_spec c, device_str_eq_spec _⟩

/-- C6: evaluating the general-purpose path's work at the failing input:
`cpu_intensive_process` never consults the concurrency counter, so the
work done with the counter held at 100 equals (is not strictly greater
than) the work done with it held at 1. -/
theorem cpu_work_ignores_concurrency :
    cpuWorkAtConcurrency 100 640 480 5 true = cpuWorkAtConcurrency 1 640 480 5 true ∧
    ¬ cpuWorkAtConcurrency 1 640 480 5 true < cpuWorkAtConcurrency 100 640 480 5 true :=
  ⟨rfl, lt_irrefl _⟩

/-- C3: a pixels argument that does not match the `<digits>x<digits>`
pattern makes `process` raise HTTP 400 after `_concurrent_requests` was
already incremented; the decrement is skipped on this path, leaving the
process-wide counter exactly one greater than before the call. -/
theorem invalid_pixels_leaks_counter (g : GlobalState) (env : Env)
    (pixels : String) (iters : ℤ) (hbad : parse_pixels pixels = none) :
    (process g env pixels iters).2.1 = Except.error 400 ∧
    (process g env pixels iters).1.concurrent = g.concurrent + 1 := by
  simp [process, hbad]

/-- C3 witness at the concrete input "not-pixels". -/
theorem invalid_pixels_leaks_counter_witness :
    parse_pixels "not-pixels" = none ∧
    ((process cpuState calmEnv "not-pixels" 5).2.1 = Except.error 400 ∧
      (process cpuState calmEnv "not-pixels" 5).1.concurrent = cpuState.concurrent + 1) :=
  ⟨by decide, invalid_pixels_leaks_counter cpuState calmEnv "not-pixels" 5 (by decide)⟩

/-- C9: under SimulatedAccelerator mode every call sleeps for the
simulated duration, and that duration is clamped into [0.002, 0.015]
seconds for every pixel size, every iterations value and every variation
drawn from [-0.15, 0.15]. -/
theorem simulated_duration_clamped (g : GlobalState) (env : Env)
    (pixels : String) (iters : ℤ) (w h : ℕ)
    (hsim : g.cfg.gpuSimulation = true)
    (hpix : parse_pixels pixels = some (w, h))
    (_hlo : -(3 / 20) ≤ env.variation) (_hhi : env.variation ≤ 3 / 20) :
    (process g env pixels iters).2.2.sleptSim
      = some (simulated_gpu_duration w h iters env.variation) ∧
    2 / 1000 ≤ simulated_gpu_duration w h iters env.variation ∧
    simulated_gpu_duration w h iters env.variation ≤ 15 / 1000 := by
  refine ⟨?_, le_max_left _ _, max_le (by norm_num) (min_le_left _ _)⟩
  simp [process, hpix, hsim]

/-- C9 witness at a concrete simulated-mode call. -/
theorem simulated_duration_clamped_witness :
    simState.cfg.gpuSimulation = true ∧
    parse_pixels "1280x720" = some (1280, 720) ∧
    -(3 / 20) ≤ calmEnv.variation ∧ calmEnv.variation ≤ 3 / 20 ∧
    ((process simState calmEnv "1280x720" 5).2.2.sleptSim
        = some (simulated_gpu_duration 1280 720 5 calmEnv.variation) ∧
      2 / 1000 ≤ simulated_gpu_duration 1280 720 5 calmEnv.variation ∧
      simulated_gpu_duration 1280 720 5 calmEnv.variation ≤ 15 / 1000) :=
  ⟨rfl, by decide, by norm_num [calmEnv], by norm_num [calmEnv],
    simulated_duration_clamped simState calmEnv "1280x720" 5 1280 720 rfl
      (by decide) (by norm_num [calmEnv]) (by norm_num [calmEnv])⟩

/-- C1 counterexample: with the device resolved to the real accelerator
and the GPU attempt failing mid-flight, the call falls back to the CPU
computation exactly once, yet the reported processing mode of the
returned result is "gpu" — not the general-purpose fallback "cpu" the
claim states. -/
theorem fallback_reports_gpu_mode :
    (process cudaState gpuFailEnv "1280x720" 5).2.2.cpuCalls = 1 ∧
    (process cudaState gpuFailEnv "1280x720" 5).2.1.map ProcessResult.processing_mode
      = Except.ok "gpu" ∧
    ("gpu" : String) ≠ "cpu" :=
  ⟨rfl, rfl, by decide⟩

/-- C1 amended: a process call that starts in RealAccelerator (cuda) mode
and whose accelerator operation fails completes without propagating any
exception, attempts the accelerator exactly once (no retry), performs the
CPU computation exactly once as a one-off fallback, and returns a
ProcessingResult — but the result's reported processing mode remains
"gpu" (derived from the configured DEVICE), not the general-purpose
fallback. -/
theorem fallback_once_no_error (g : GlobalState) (env : Env)
    (pixels : String) (iters : ℤ) (w h : ℕ)
    (hsim : g.cfg.gpuSimulation = false) (hdev : g.device = "cuda")
    (ht : g.cfg.torchPresent = true) (hca : g.cfg.cudaAvailable = true)
    (hfail : env.gpuFails = true) (hpix : parse_pixels pixels = some (w, h)) :
    (process g env pixels iters).2.1 = Except.ok
      { device := "cuda"
        pixels := (w, h)
        iters := iters
        latency_seconds := env.elapsed
        processing_mode := "gpu"
        concurrent_requests := g.concurrent } ∧
    (process g env pixels iters).2.2.cpuCalls = 1 ∧
    (process g env pixels iters).2.2.gpuAttempts = 1 := by
  simp [process, hpix, hsim, hdev, ht, hca, hfail]

/-- C1 witness at a concrete failing real-accelerator call. -/
theorem fallback_once_no_error_witness :
    cudaState.cfg.gpuSimulation = false ∧ cudaState.device = "cuda" ∧
    cudaState.cfg.torchPresent = true ∧ cudaState.cfg.cudaAvailable = true ∧
    gpuFailEnv.gpuFails = true ∧ parse_pixels "1280x720" = some (1280, 720) ∧
    ((process cudaState gpuFailEnv "1280x720" 5).2.1 = Except.ok
        { device := "cuda"
          pixels := (1280, 720)
          iters := 5
          latency_seconds := gpuFailEnv.elapsed
          processing_mode := "gpu"
          concurrent_requests := cudaState.concurrent } ∧
      (process cudaState gpuFailEnv "1280x720" 5).2.2.cpuCalls = 1 ∧
      (process cudaState gpuFailEnv "1280x720" 5).2.2.gpuAttempts = 1) :=
  ⟨rfl, rfl, rfl, rfl, rfl, by decide,
    fallback_once_no_error cudaState gpuFailEnv "1280x720" 5 1280 720 rfl rfl
      rfl rfl rfl (by decide)⟩

/-- Closed form of the counter after a sequence of operations. -/
lemma runCounter_eq (ops : List CounterOp) (n : ℤ) :
    runCounter n ops
      = n + ops.count CounterOp.inc - ops.count CounterOp.dec := by
  induction ops generalizing n with
  | nil => simp [runCounter]
  | cons o t ih =>
      have h := ih (applyCounterOp n o)
      simp only [runCounter, List.foldl_cons] at h ⊢
      rw [h]
      cases o <;> simp [applyCounterOp, List.count_cons] <;> ring

/-- C2: for any matched sequence of increment/decrement operations the
counter stays ≥ 0 at every point of the sequence, and any process call
that completes (success or fallback) restores `_concurrent_requests` to
its value immediately before the call. -/
theorem counter_invariant (ops : List CounterOp) (hm : MatchedOps ops) (n : ℕ)
    (g : GlobalState) (env : Env) (pixels : String) (iters : ℤ)
    (r : ProcessResult)
    (hok : (process g env pixels iters).2.1 = Except.ok r) :
    0 ≤ runCounter 0 (ops.take n) ∧
    (process g env pixels iters).1.concurrent = g.concurrent := by
  constructor
  · rw [runCounter_eq]
    have h := hm n
    omega
  · rcases hp : parse_pixels pixels with _ | ⟨w, h⟩
    · simp [process, hp] at hok
    · simp [process, hp]

/-- The sequence increment-then-decrement is matched. -/
lemma matched_inc_dec : MatchedOps [CounterOp.inc, CounterOp.dec] := by
  intro n
  match n with
  | 0 => decide
  | 1 => decide
  | k + 2 =>
      rw [List.take_of_length_le (by simp)]
      decide

/-- C2 witness at a concrete matched sequence and a concrete completing
call. -/
theorem counter_invariant_witness :
    MatchedOps [CounterOp.inc, CounterOp.dec] ∧
    (process cpuState calmEnv "1280x720" 5).2.1
      = Except.ok ⟨"cpu", (1280, 720), 5, 1 / 100, "cpu", 0⟩ ∧
    (0 ≤ runCounter 0 ([CounterOp.inc, CounterOp.dec].take 1) ∧
      (process cpuState calmEnv "1280x720" 5).1.concurrent = cpuState.concurrent) :=
  ⟨matched_inc_dec, rfl,
    counter_invariant [CounterOp.inc, CounterOp.dec] matched_inc_dec 1
      cpuState calmEnv "1280x720" 5 ⟨"cpu", (1280, 720), 5, 1 / 100, "cpu", 0⟩ rfl⟩

/-- Recording preserves the capacity bound. -/
lemma recordLatency_length (w : List ℚ) (d : ℚ) (hw : w.length ≤ 512) :
    (recordLatency w d).length ≤ 512 := by
  unfold recordLatency
  by_cases hlen : w.length = 512
  · simp only [if_pos hlen, List.length_append, List.length_tail,
      List.length_singleton]
    omega
  · simp only [if_neg hlen, List.length_append, List.length_singleton]
    omega

/-- Folding `recordLatency` over any sequence of durations keeps exactly
the suffix of the last 512 values of (initial window ++ recorded). -/
lemma foldl_recordLatency (ds : List ℚ) (w : List ℚ) (hw : w.length ≤ 512) :
    List.foldl recordLatency w ds = (w ++ ds).drop ((w ++ ds).length - 512) := by
  induction ds generalizing w with
  | nil =>
      simp [Nat.sub_eq_zero_of_le (by simpa using hw)]
  | cons d t ih =>
      rw [List.foldl_cons, ih (recordLatency w d) (recordLatency_length w d hw)]
      by_cases hlen : w.length = 512
      · cases w with
        | nil => simp at hlen
        | cons a u =>
            have hu : u.length = 511 := by simpa using hlen
            have h1 : recordLatency (a :: u) d = u ++ [d] := by
              simp [recordLatency, hlen]
            rw [h1]
            have h2 : (u ++ [d]) ++ t = u ++ d :: t := by simp
            have h3 : (a :: u) ++ d :: t = a :: (u ++ d :: t) := by simp
            rw [h2, h3]
            have h4 : (u ++ d :: t).length - 512 = t.length := by
              simp only [List.length_append, List.length_cons, hu]
              omega
            have h5 : (a :: (u ++ d :: t)).length - 512 = t.length + 1 := by
              simp only [List.length_append, List.length_cons, hu]
              omega
            rw [h4, h5, List.drop_succ_cons]
      · have h1 : recordLatency w d = w ++ [d] := by
          simp [recordLatency, hlen]
        rw [h1, show (w ++ [d]) ++ t = w ++ d :: t from by simp]

/-- C5: starting from the empty startup window, after recording any
sequence of durations the window holds at most 512 entries, and it equals
exactly the most recent 512 recorded durations in insertion order (all of
them while 512 or fewer have been recorded). -/
theorem window_bounded_last512 (ds : List ℚ) :
    (List.foldl recordLatency [] ds).length ≤ 512 ∧
    List.foldl recordLatency [] ds = ds.drop (ds.length - 512) := by
  have h := foldl_recordLatency ds [] (by simp)
  simp only [List.nil_append] at h
  refine ⟨?_, h⟩
  rw [h, List.length_drop]
  omega

/-- C4: for a non-empty dataset of n recorded durations, `p95` returns
the element at zero-based index floor(0.95 * (n - 1)) — embedded exactly
as (19 * (n - 1)) / 20 — of the ascending sort of the data: whatever
sorted rearrangement s of the values one takes, the result is
s[(19 * (n - 1)) / 20] (nearest rank, no interpolation). -/
theorem p95_nearest_rank (values s : List ℚ) (hne : values ≠ [])
    (hperm : values.Perm s) (hsort : s.Sorted (· ≤ ·)) :
    p95 values = s.getD ((19 * (values.length - 1)) / 20) 0 := by
  have hs : List.insertionSort (· ≤ ·) values = s :=
    List.eq_of_perm_of_sorted ((List.perm_insertionSort _ _).trans hperm)
      (List.sorted_insertionSort _ _) hsort
  have hlen : values.length = s.length := hperm.length_eq
  simp only [p95]
  rw [if_neg (by simpa [List.isEmpty_iff] using hne)]
  rw [hs, hlen]

/-- C4 witness: the spec's dataset [1,...,10] has p95 equal to 9. -/
theorem p95_nearest_rank_witness :
    ([1, 2, 3, 4, 5, 6, 7, 8, 9, 10] : List ℚ) ≠ [] ∧
    ([1, 2, 3, 4, 5, 6, 7, 8, 9, 10] : List ℚ).Perm
      [1, 2, 3, 4, 5, 6, 7, 8, 9, 10] ∧
    ([1, 2, 3, 4, 5, 6, 7, 8, 9, 10] : List ℚ).Sorted (· ≤ ·) ∧
    p95 [1, 2, 3, 4, 5, 6, 7, 8, 9, 10] = 9 := by
  refine ⟨by decide, List.Perm.refl _, by decide, ?_⟩
  rw [p95_nearest_rank [1, 2, 3, 4, 5, 6, 7, 8, 9, 10]
    [1, 2, 3, 4, 5, 6, 7, 8, 9, 10] (by decide) (List.Perm.refl _) (by decide)]
  decide

/-- The `<digits>x<digits>` shape of a pixel string: a nonempty ASCII
digit group, one case-insensitive x separator, a nonempty digit group,
and nothing else; `w` and `h` are the integer values of the groups. -/
def PixelsForm (p : String) (w h : ℕ) : Prop :=
  ∃ d1 sep d2, p.toList = d1 ++ sep :: d2 ∧ d1 ≠ [] ∧ d2 ≠ [] ∧
    d1.all isPixDigit = true ∧ d2.all isPixDigit = true ∧
    isSepChar sep = true ∧ w = digitsVal d1 ∧ h = digitsVal d2

/-- The separator characters are not digits. -/
lemma isPixDigit_of_sep (c : Char) (h : isSepChar c = true) :
    isPixDigit c = false := by
  have hc : c = 'x' ∨ c = 'X' := by
    simpa [isSepChar, Bool.or_eq_true, decide_eq_true_eq] using h
  rcases hc with rfl | rfl <;> decide

/-- C8 amended: the validator accepts a pixels string iff it has the form
`<digits>x<digits>` with a case-insensitive x separator, and on
acceptance it yields the two parsed nonnegative integers (the digit
groups' values, which may be zero); every other input is rejected. -/
theorem parse_pixels_spec (p : String) (w h : ℕ) :
    parse_pixels p = some (w, h) ↔ PixelsForm p w h := by
  constructor
  · intro hp
    rcases hdrop : p.toList.dropWhile isPixDigit with _ | ⟨sep, d2⟩
    · simp only [parse_pixels, hdrop] at hp
      exact absurd hp (by simp)
    · simp only [parse_pixels, hdrop] at hp
      by_cases hc : p.toList.takeWhile isPixDigit ≠ [] ∧ isSepChar sep
          ∧ d2 ≠ [] ∧ d2.all isPixDigit
      · rw [if_pos hc] at hp
        obtain ⟨hw, hh⟩ : digitsVal (p.toList.takeWhile isPixDigit) = w
            ∧ digitsVal d2 = h := by simpa using hp
        refine ⟨p.toList.takeWhile isPixDigit, sep, d2, ?_, hc.1, hc.2.2.1,
          List.all_takeWhile, by simpa using hc.2.2.2, by simpa using hc.2.1,
          hw.symm, hh.symm⟩
        conv_lhs => rw [← List.takeWhile_append_dropWhile isPixDigit p.toList]
        rw [hdrop]
      · rw [if_neg hc] at hp
        exact absurd hp (by simp)

  · rintro ⟨d1, sep, d2, hcs, hne1, hne2, hall1, hall2, hsep, hw, hh⟩
    have hsepd : isPixDigit sep = false := isPixDigit_of_sep sep hsep
    have hd1 : ∀ a ∈ d1, isPixDigit a := by
      simpa [List.all_eq_true] using hall1
    have htake : p.toList.takeWhile isPixDigit = d1 := by
      rw [hcs, List.takeWhile_append_of_pos hd1]
      simp [List.takeWhile_cons, hsepd]
    have hdropw : p.toList.dropWhile isPixDigit = sep :: d2 := by
      rw [hcs, List.dropWhile_append_of_pos hd1]
      simp [List.dropWhile_cons, hsepd]
    simp only [parse_pixels, hdropw, htake]
    simp [hne1, hne2, hsep, hall2, hw, hh]

/-- C8 counterexample: the validator accepts "0x720", yielding a width of
0, which is not a positive integer as the claim states. -/
theorem parse_pixels_accepts_zero :
    parse_pixels "0x720" = some (0, 720) ∧ ¬ 0 < (0 : ℕ) :=
  ⟨by decide, by decide⟩
